import Mathlib

/-!
Verification development for the Salt-Bot ticket system.

The core under verification is the ticket lifecycle: the creation saga
(`TicketManager.createTicket` and its helpers `checkExistingTicket`,
`validateCreationPrerequisites`, `createDiscordChannel`, `sendWelcomeMessage`),
and the button handlers (`handleClaimButton`, `handleReopenButton`,
`handleArchiveButton`, `handleDeleteButton`).

The external collaborators (Discord API, the TypeORM-backed
`TicketRepository`, the notifier) are modelled by an explicit environment of
oracles: each fallible external call is a field of the environment giving the
outcome of that call in the run under consideration.  Each embedded operation
returns its result together with a trace of the external effects it issued, in
issue order, so that sequencing claims ("X happens before Y", "Z is never
issued") are statements about the trace.
-/

namespace SaltBot

/-- Ticket status enum (`ITicketStatus` in the source: "open" / "closed" /
"archived"). -/
inductive ITicketStatus
  | OPEN
  | CLOSED
  | ARCHIVED
deriving DecidableEq, Repr

/-- The slice of `ITicketCategory` the core reads. -/
structure TicketCategory where
  id : String
  name : String
  supportRoleId : Option String
  isEnabled : Bool
deriving DecidableEq, Repr

/-- The slice of `IGuildConfig` the core reads during validation. -/
structure GuildConfig where
  isEnabled : Bool
deriving DecidableEq, Repr

/-- A persisted ticket record (`ITicket` plus the `claimedById` column used by
the claim handler). -/
structure Ticket where
  id : String
  ticketNumber : Nat
  channelId : String
  creatorId : String
  claimedById : Option String
  status : ITicketStatus
  closedById : Option String
  closeReason : Option String
  closedAt : Option Nat
  category : TicketCategory
deriving DecidableEq, Repr

/-- External effects issued by the core, in issue order.  Repository writes,
channel operations and notifications are all recorded here. -/
inductive Effect
  | getGuildTickets (guildId : String)
  | updateTicketStatus (ticketId : String) (status : ITicketStatus)
      (closedById : Option String) (reason : Option String)
  | getGuildConfig (guildId : String)
  | getTicketCategory (categoryId : String)
  | channelCreate (name : String)
  | supportRoleOverwrite (roleId : String)
  | repoCreateTicket (guildId : String) (creatorId : String)
      (channelId : String) (categoryId : String)
  | channelRename (channelId : String) (name : String)
  | welcomeSend (channelId : String)
  | channelDelete (channelId : String)
  | logWarn (msg : String)
  | logError (msg : String)
  | claimTicket (ticketId : String) (actorId : String)
  | unclaimTicket (ticketId : String)
  | channelSend (channelId : String) (title : String)
  | permissionOverwrite (principalId : String)
  | editReplyMsg (msg : String)
  | dmUser (userId : String) (msg : String)
deriving DecidableEq, Repr

/-- `ITicketCreationOptions` from the source. -/
structure ITicketCreationOptions where
  userId : String
  guildId : String
  categoryId : String
  fromChatbot : Bool
  originalMessage : Option String
  additionalContext : Option String
deriving Repr

/-- `ITicketCreationResult` from the source: `success` plus optional payload
or error message.  The created channel is represented by its id. -/
structure ITicketCreationResult where
  success : Bool
  ticket : Option Ticket
  channel : Option String
  ticketNumber : Option Nat
  error : Option String
deriving DecidableEq, Repr

/-- Oracle environment for one run of the creation saga: the outcome of each
external call `TicketManager.createTicket` can make. -/
structure SagaEnv where
  /-- Result of `ticketRepo.getGuildTickets` (error = the query throws). -/
  guildTickets : Except String (List Ticket)
  /-- Whether `client.channels.cache.get(channelId)` resolves. -/
  channelResolves : String → Bool
  /-- Whether the repository throws during prerequisite validation. -/
  prereqThrows : Bool
  /-- Result of `ticketRepo.getGuildConfig`. -/
  guildConfig : Option GuildConfig
  /-- Result of `ticketRepo.getTicketCategory`. -/
  category : Option TicketCategory
  /-- Whether `client.guilds.cache.get(guildId)` resolves. -/
  guildFound : Bool
  /-- Result of `guild.channels.create` (the new channel's id, or failure). -/
  createdChannel : Option String
  /-- Result of `ticketRepo.createTicket` (error = the insert throws). -/
  repoCreate : Except String Ticket
  /-- Whether `createdChannel.setName` succeeds. -/
  renameOk : Bool
  /-- Whether `channel.send` of the welcome message succeeds. -/
  welcomeOk : Bool
  /-- Whether the compensating `createdChannel.delete` succeeds. -/
  channelDeleteOk : Bool

/-- `TicketManager.checkExistingTicket`: looks for an open ticket of the user
in the guild; a resolving channel means a duplicate, a non-resolving channel
is self-healed by closing the stale record; any thrown error is swallowed and
reported as "no existing ticket". -/
def checkExistingTicket (env : SagaEnv) (userId guildId : String) :
    Option (Ticket × String) × List Effect :=
  match env.guildTickets with
  | Except.error _ => (none, [Effect.getGuildTickets guildId])
  | Except.ok guildTickets =>
    let userOpenTickets := guildTickets.filter fun t =>
      t.creatorId == userId && t.status == ITicketStatus.OPEN
    match userOpenTickets with
    | [] => (none, [Effect.getGuildTickets guildId])
    | existingTicket :: _ =>
      if env.channelResolves existingTicket.channelId then
        (some (existingTicket, existingTicket.channelId),
         [Effect.getGuildTickets guildId])
      else
        (none,
         [Effect.getGuildTickets guildId,
          Effect.updateTicketStatus existingTicket.id ITicketStatus.CLOSED
            (some "system") (some "Ticket channel was deleted")])

/-- Result record of `TicketManager.validateCreationPrerequisites`. -/
structure ValidationResult where
  valid : Bool
  error : Option String
  guildConfig : Option GuildConfig
  category : Option TicketCategory
deriving DecidableEq, Repr

/-- `TicketManager.validateCreationPrerequisites`: guild config present and
enabled, category present and enabled; a repository error yields a generic
invalid result. -/
def validateCreationPrerequisites (env : SagaEnv) (guildId categoryId : String) :
    ValidationResult × List Effect :=
  if env.prereqThrows then
    ({ valid := false,
       error := some "An error occurred while validating ticket creation requirements.",
       guildConfig := none, category := none },
     [Effect.getGuildConfig guildId])
  else
    match env.guildConfig with
    | none =>
      ({ valid := false,
         error := some "The ticket system is currently disabled for this server.",
         guildConfig := none, category := none },
       [Effect.getGuildConfig guildId])
    | some guildConfig =>
      if !guildConfig.isEnabled then
        ({ valid := false,
           error := some "The ticket system is currently disabled for this server.",
           guildConfig := none, category := none },
         [Effect.getGuildConfig guildId])
      else
        match env.category with
        | none =>
          ({ valid := false,
             error := some "The selected ticket category no longer exists.",
             guildConfig := none, category := none },
           [Effect.getGuildConfig guildId, Effect.getTicketCategory categoryId])
        | some category =>
          if !category.isEnabled then
            ({ valid := false,
               error := some "The selected ticket category is currently disabled.",
               guildConfig := none, category := none },
             [Effect.getGuildConfig guildId, Effect.getTicketCategory categoryId])
          else
            ({ valid := true, error := none,
               guildConfig := some guildConfig, category := some category },
             [Effect.getGuildConfig guildId, Effect.getTicketCategory categoryId])

/-- Left-pad with a character, as `String.prototype.padStart`. -/
def padStart (s : String) (len : Nat) (c : Char) : String :=
  String.mk (List.replicate (len - s.length) c) ++ s

/-- `TicketManager.createTicket`: the creation saga.  Steps in source order:
existing-ticket check, prerequisite validation, guild lookup, channel
creation (with best-effort support-role overwrite), record insert, channel
rename, welcome message.  A throw after the channel was provisioned reaches
the outer catch, which best-effort deletes the channel and returns the
generic failure. -/
def createTicket (env : SagaEnv) (options : ITicketCreationOptions) :
    ITicketCreationResult × List Effect :=
  let failure : String → ITicketCreationResult := fun e =>
    { success := false, ticket := none, channel := none,
      ticketNumber := none, error := some e }
  let step1 := checkExistingTicket env options.userId options.guildId
  match step1.1 with
  | some existing =>
    (failure ("You already have an open ticket: " ++ existing.2), step1.2)
  | none =>
    let step2 := validateCreationPrerequisites env options.guildId options.categoryId
    let trace2 := step1.2 ++ step2.2
    if !step2.1.valid then
      (failure (step2.1.error.getD "Validation failed"), trace2)
    else
      match step2.1.category with
      | none => (failure (step2.1.error.getD "Validation failed"), trace2)
      | some category =>
        if !env.guildFound then
          (failure "Server not found", trace2)
        else
          match env.createdChannel with
          | none =>
            (failure "Failed to create ticket channel",
             trace2 ++ [Effect.channelCreate "ticket-new"])
          | some channelId =>
            let supportTrace :=
              match category.supportRoleId with
              | some supportRoleId => [Effect.supportRoleOverwrite supportRoleId]
              | none => []
            let trace4 := trace2 ++ [Effect.channelCreate "ticket-new"] ++ supportTrace
            let cleanupTrace :=
              [Effect.channelDelete channelId] ++
              (if env.channelDeleteOk then []
               else [Effect.logError "Failed to cleanup channel"])
            match env.repoCreate with
            | Except.error _ =>
              (failure "An unexpected error occurred while creating the ticket",
               trace4 ++
                 [Effect.repoCreateTicket options.guildId options.userId
                   channelId options.categoryId] ++ cleanupTrace)
            | Except.ok ticket =>
              let channelName :=
                "ticket-" ++ padStart (toString ticket.ticketNumber) 4 '0'
              let trace5 := trace4 ++
                [Effect.repoCreateTicket options.guildId options.userId
                   channelId options.categoryId,
                 Effect.channelRename channelId channelName]
              if !env.renameOk then
                (failure "An unexpected error occurred while creating the ticket",
                 trace5 ++ cleanupTrace)
              else
                ({ success := true, ticket := some ticket,
                   channel := some channelId,
                   ticketNumber := some ticket.ticketNumber, error := none },
                 trace5 ++ [Effect.welcomeSend channelId] ++
                   (if env.welcomeOk then []
                    else [Effect.logWarn "Welcome message failed"]))

/-- Modelled from the spec: `TicketRepository.updateTicketStatus` is not in
the source tree (only its callers are).  Per §6
(`updateStatus(ticketId, status, actorId?, reason?)`) and §4.1 (close and
archive write `closedBy`/`closeReason`/`closedAt`; reopen "writes status=OPEN,
clears close metadata"), setting a non-OPEN status records the closing actor,
reason and time, and setting OPEN clears the close metadata. -/
def updateTicketStatus (t : Ticket) (status : ITicketStatus)
    (closedById reason : Option String) (now : Nat) : Ticket :=
  if status == ITicketStatus.OPEN then
    { t with status := status, closedById := none, closeReason := none,
             closedAt := none }
  else
    { t with status := status, closedById := closedById, closeReason := reason,
             closedAt := some now }

/-- Modelled from the spec: the effect of one repository write on a ticket
record.  `updateTicketStatus` follows §4.1/§6 as above;
`claimTicket`/`unclaimTicket` follow §6's `setClaimant(ticketId, actorId|null)`.
Non-repository effects (channel and notifier calls) do not touch the record. -/
def applyEffect (now : Nat) (t : Ticket) (e : Effect) : Ticket :=
  match e with
  | Effect.updateTicketStatus ticketId status closedById reason =>
    if ticketId == t.id then updateTicketStatus t status closedById reason now else t
  | Effect.claimTicket ticketId actorId =>
    if ticketId == t.id then { t with claimedById := some actorId } else t
  | Effect.unclaimTicket ticketId =>
    if ticketId == t.id then { t with claimedById := none } else t
  | _ => t

/-- Fold a trace of effects over one ticket record. -/
def applyEffects (now : Nat) (t : Ticket) (es : List Effect) : Ticket :=
  es.foldl (applyEffect now) t

/-- Capabilities of the interacting member, as read by the claim handler. -/
structure ClaimEnv where
  actorHasManageChannels : Bool
  actorRoles : List String
deriving DecidableEq, Repr

/-- Outcome reported by `handleClaimButton`. -/
inductive ClaimOutcome
  | notTicketChannel
  | unclaimed
  | alreadyClaimed (claimantId : String)
  | permissionDenied
  | claimed
deriving DecidableEq, Repr

/-- `handleClaimButton`: if the ticket is claimed by the actor, unclaim it; if
claimed by someone else, report `Ticket Already Claimed` naming the claimant
and issue no repository write; if unclaimed, check Manage-Channels or
support-role membership, then claim. -/
def handleClaimButton (env : ClaimEnv) (ticket : Option Ticket)
    (actorId : String) : ClaimOutcome × List Effect :=
  match ticket with
  | none => (ClaimOutcome.notTicketChannel, [])
  | some t =>
    match t.claimedById with
    | some claimedById =>
      if claimedById == actorId then
        (ClaimOutcome.unclaimed, [Effect.unclaimTicket t.id])
      else
        (ClaimOutcome.alreadyClaimed claimedById, [])
    | none =>
      let hasPermission :=
        env.actorHasManageChannels ||
          (match t.category.supportRoleId with
           | some supportRoleId => env.actorRoles.contains supportRoleId
           | none => false)
      if !hasPermission then
        (ClaimOutcome.permissionDenied, [])
      else
        (ClaimOutcome.claimed, [Effect.claimTicket t.id actorId])

/-- Outcome reported by `handleReopenButton`. -/
inductive ReopenOutcome
  | notTicketChannel
  | alreadyOpen
  | reopened
deriving DecidableEq, Repr

/-- `handleReopenButton`: rejects an already-open ticket; otherwise writes
status OPEN (no actor, no reason), announces the reopen in the channel, and
best-effort restores the channel permission overwrites (everyone, creator,
support role); a permissions failure downgrades the reply but does not undo
the status write.  `permsOk` is the oracle for the permissions block. -/
def handleReopenButton (ticket : Option Ticket) (actorId : String)
    (permsOk : Bool) : ReopenOutcome × List Effect :=
  match ticket with
  | none => (ReopenOutcome.notTicketChannel, [])
  | some t =>
    if t.status == ITicketStatus.OPEN then
      (ReopenOutcome.alreadyOpen, [])
    else
      let permTrace :=
        if permsOk then
          [Effect.permissionOverwrite "everyone",
           Effect.permissionOverwrite t.creatorId] ++
          (match t.category.supportRoleId with
           | some supportRoleId => [Effect.permissionOverwrite supportRoleId]
           | none => []) ++
          [Effect.editReplyMsg "Ticket reopened successfully."]
        else
          [Effect.editReplyMsg
            "Ticket marked as reopened, but could not update channel permissions."]
      (ReopenOutcome.reopened,
       [Effect.updateTicketStatus t.id ITicketStatus.OPEN none none,
        Effect.channelSend t.channelId "Ticket Reopened"] ++ permTrace)

/-- Outcome reported by `handleArchiveButton`. -/
inductive ArchiveOutcome
  | notTicketChannel
  | alreadyArchived
  | archived
deriving DecidableEq, Repr

/-- `handleArchiveButton`: rejects an already-archived ticket; otherwise
writes status ARCHIVED with the acting user and reason "Ticket archived" and
announces the archive in the channel. -/
def handleArchiveButton (ticket : Option Ticket) (actorId : String) :
    ArchiveOutcome × List Effect :=
  match ticket with
  | none => (ArchiveOutcome.notTicketChannel, [])
  | some t =>
    if t.status == ITicketStatus.ARCHIVED then
      (ArchiveOutcome.alreadyArchived, [])
    else
      (ArchiveOutcome.archived,
       [Effect.updateTicketStatus t.id ITicketStatus.ARCHIVED (some actorId)
          (some "Ticket archived"),
        Effect.channelSend t.channelId "Ticket Archived"])

/-- A component interaction as seen by the confirmation collector. -/
structure ComponentEvent where
  isButton : Bool
  customId : String
  userId : String
deriving DecidableEq, Repr

/-- The collector's filter: button interactions with action id
`confirm_delete` or `cancel_delete` from the requesting principal. -/
def collectorFilter (requesterId : String) (i : ComponentEvent) : Bool :=
  i.isButton &&
    (i.customId == "confirm_delete" || i.customId == "cancel_delete") &&
    i.userId == requesterId

/-- The collector's window (`time: 30000`). -/
def collectorWindowMs : Nat := 30000

/-- Effects of the confirmed-delete branch: persist status CLOSED (actor and
reason) first, DM the creator, update the prompt, then attempt channel
removal; a removal failure is reported to the actor by DM, with no further
repository write. -/
def confirmDeleteTrace (t : Ticket) (actorId : String)
    (channelDeleteOk : Bool) : List Effect :=
  [Effect.updateTicketStatus t.id ITicketStatus.CLOSED (some actorId)
     (some "Ticket deleted by staff"),
   Effect.dmUser t.creatorId "Ticket Deleted",
   Effect.editReplyMsg "Deleting ticket...",
   Effect.channelDelete t.channelId] ++
  (if channelDeleteOk then []
   else [Effect.dmUser actorId "Failed to delete the ticket channel."])

/-- A component interaction together with its dispatch time, in milliseconds
after the gate opened. -/
structure TimedEvent where
  arrival : Nat
  ev : ComponentEvent
deriving DecidableEq, Repr

/-- Whether a `collector.stop()` scheduled to execute at time `s` has already
executed by time `τ`. -/
def stopExecuted : Option Nat → Nat → Bool
  | none, _ => false
  | some s, τ => s ≤ τ

/-- Earliest scheduled `collector.stop()` time after a further collect whose
handler will reach its `stop()` at time `τ`. -/
def scheduleStop : Option Nat → Nat → Option Nat
  | none, τ => some τ
  | some s, τ => some (Nat.min s τ)

/-- The events the collector actually collects, in dispatch order.  The
source's `collector.stop()` runs only at the end of the collect handler,
after its awaits (`deferUpdate`, the status write, the creator DM, the reply
edit), which the model charges as `latency` ms after the collect.  An event
dispatched inside the window and before the earliest executed stop is
collected whenever it passes the filter — in particular a duplicate press
delivered while the previous handler is still awaiting is collected and
handled again. -/
def collectedEvents (requesterId : String) (latency : Nat) :
    List TimedEvent → Option Nat → List ComponentEvent
  | [], _ => []
  | e :: rest, stopAt =>
    if collectorWindowMs ≤ e.arrival then
      collectedEvents requesterId latency rest stopAt
    else if stopExecuted stopAt e.arrival then
      collectedEvents requesterId latency rest stopAt
    else if collectorFilter requesterId e.ev then
      e.ev :: collectedEvents requesterId latency rest
        (scheduleStop stopAt (e.arrival + latency))
    else
      collectedEvents requesterId latency rest stopAt

/-- The collected events of one gate, from the open-gate state (no stop
scheduled). -/
def gateCollected (requesterId : String) (latency : Nat)
    (events : List TimedEvent) : List ComponentEvent :=
  collectedEvents requesterId latency events none

/-- Effects of one collect-handler run: the cancel reply, or the confirmed
delete transition. -/
def collectHandlerTrace (t : Ticket) (requesterId : String)
    (channelDeleteOk : Bool) (i : ComponentEvent) : List Effect :=
  if i.customId == "cancel_delete" then
    [Effect.editReplyMsg "Ticket deletion canceled."]
  else
    confirmDeleteTrace t requesterId channelDeleteOk

/-- The confirmation gate over the dispatched events: every collected event's
handler runs (effects of overlapping handlers are serialized in collection
order); if the window elapses with nothing collected, the timeout reply is
issued once. -/
def runDeleteCollector (t : Ticket) (requesterId : String)
    (events : List TimedEvent) (latency : Nat)
    (channelDeleteOk : Bool) : List Effect :=
  let collected := gateCollected requesterId latency events
  (collected.map (collectHandlerTrace t requesterId channelDeleteOk)).join ++
    (if collected.isEmpty then
      [Effect.editReplyMsg "Ticket deletion timed out."]
    else [])

/-- Outcome reported by `handleDeleteButton` before the gate resolves. -/
inductive DeleteOutcome
  | notTicketChannel
  | permissionDenied
  | gateOpened
deriving DecidableEq, Repr

/-- `handleDeleteButton`: requires a ticket channel and Manage Channels, then
opens the confirmation gate. -/
def handleDeleteButton (ticket : Option Ticket) (requesterId : String)
    (hasManageChannels : Bool) (events : List TimedEvent) (latency : Nat)
    (channelDeleteOk : Bool) : DeleteOutcome × List Effect :=
  match ticket with
  | none => (DeleteOutcome.notTicketChannel, [])
  | some t =>
    if !hasManageChannels then
      (DeleteOutcome.permissionDenied, [])
    else
      (DeleteOutcome.gateOpened,
       runDeleteCollector t requesterId events latency channelDeleteOk)

/-- Recognizes a repository status write in a trace. -/
def isStatusUpdateEffect : Effect → Bool
  | Effect.updateTicketStatus _ _ _ _ => true
  | _ => false

/-- Recognizes a channel-removal attempt in a trace. -/
def isChannelDeleteEffect : Effect → Bool
  | Effect.channelDelete _ => true
  | _ => false

/-! ### Concrete sample data (used by witnesses and counterexamples) -/

def sampleCategory : TicketCategory :=
  { id := "cat1", name := "General", supportRoleId := some "role1",
    isEnabled := true }

def sampleTicket : Ticket :=
  { id := "t1", ticketNumber := 7, channelId := "chan1", creatorId := "user1",
    claimedById := none, status := ITicketStatus.OPEN, closedById := none,
    closeReason := none, closedAt := none, category := sampleCategory }

def sampleNewTicket : Ticket :=
  { sampleTicket with id := "t2", ticketNumber := 8, channelId := "chan9" }

def archivedTicket : Ticket :=
  { sampleTicket with status := ITicketStatus.ARCHIVED }

def claimedTicket : Ticket :=
  { sampleTicket with claimedById := some "staffA" }

def sampleOptions : ITicketCreationOptions :=
  { userId := "user1", guildId := "guild1", categoryId := "cat1",
    fromChatbot := false, originalMessage := none, additionalContext := none }

def happyEnv : SagaEnv :=
  { guildTickets := Except.ok [], channelResolves := fun _ => true,
    prereqThrows := false, guildConfig := some { isEnabled := true },
    category := some sampleCategory, guildFound := true,
    createdChannel := some "chan9", repoCreate := Except.ok sampleNewTicket,
    renameOk := true, welcomeOk := true, channelDeleteOk := true }

def throwEnv : SagaEnv :=
  { happyEnv with guildTickets := Except.error "db down" }

def persistFailEnv : SagaEnv :=
  { happyEnv with repoCreate := Except.error "insert failed" }

def renameFailEnv : SagaEnv :=
  { happyEnv with renameOk := false }

def staleEnv : SagaEnv :=
  { happyEnv with guildTickets := Except.ok [sampleTicket],
                  channelResolves := fun _ => false }

def dupEnv : SagaEnv :=
  { happyEnv with guildTickets := Except.ok [sampleTicket] }

def confirmPress : ComponentEvent :=
  { isButton := true, customId := "confirm_delete", userId := "staff1" }

/-! ### Claims about the claim arbiter -/

/-- C4: on a ticket claimed by actor `a`, a claim-button toggle by `a` is an
unclaim that returns `claimedById` to null, while a toggle by a different
actor `b` reports the ticket as already claimed by `a` and issues no
repository write, leaving `claimedById` unchanged at `a`. -/
theorem claim_toggle_exclusion (env env2 : ClaimEnv) (t : Ticket)
    (a b : String) (now : Nat)
    (hclaim : t.claimedById = some a) (hne : b ≠ a) :
    handleClaimButton env (some t) a =
      (ClaimOutcome.unclaimed, [Effect.unclaimTicket t.id]) ∧
    (applyEffects now t (handleClaimButton env (some t) a).2).claimedById = none ∧
    handleClaimButton env2 (some t) b = (ClaimOutcome.alreadyClaimed a, []) ∧
    (applyEffects now t
        (handleClaimButton env2 (some t) b).2).claimedById = some a := by
  have hab : (a == b) = false := by
    simp [Ne.symm hne]
  simp [handleClaimButton, hclaim, hab, applyEffects, applyEffect]

theorem claim_toggle_exclusion_witness :
    handleClaimButton ⟨true, []⟩ (some claimedTicket) "staffA" =
      (ClaimOutcome.unclaimed, [Effect.unclaimTicket claimedTicket.id]) ∧
    (applyEffects 5 claimedTicket
        (handleClaimButton ⟨true, []⟩ (some claimedTicket) "staffA").2).claimedById
      = none ∧
    handleClaimButton ⟨false, []⟩ (some claimedTicket) "staffB" =
      (ClaimOutcome.alreadyClaimed "staffA", []) ∧
    (applyEffects 5 claimedTicket
        (handleClaimButton ⟨false, []⟩ (some claimedTicket) "staffB").2).claimedById
      = some "staffA" :=
  claim_toggle_exclusion ⟨true, []⟩ ⟨false, []⟩ claimedTicket "staffA" "staffB" 5
    rfl (by decide)

/-- C10: the Manage-Channels / support-role permission guard is evaluated
only on the claim path: when the interacting user is the current claimant,
the unclaim executes and clears `claimedById` under every capability
environment, including one with no capability at all. -/
theorem unclaim_skips_permission_guard (env env2 : ClaimEnv) (t : Ticket)
    (a : String) (now : Nat) (hclaim : t.claimedById = some a) :
    handleClaimButton env (some t) a = handleClaimButton env2 (some t) a ∧
    handleClaimButton { actorHasManageChannels := false, actorRoles := [] }
        (some t) a = (ClaimOutcome.unclaimed, [Effect.unclaimTicket t.id]) ∧
    (applyEffects now t
        (handleClaimButton env (some t) a).2).claimedById = none := by
  simp [handleClaimButton, hclaim, applyEffects, applyEffect]

theorem unclaim_skips_permission_guard_witness :
    handleClaimButton ⟨true, ["role1"]⟩ (some claimedTicket) "staffA" =
      handleClaimButton ⟨false, []⟩ (some claimedTicket) "staffA" ∧
    handleClaimButton { actorHasManageChannels := false, actorRoles := [] }
        (some claimedTicket) "staffA" =
      (ClaimOutcome.unclaimed, [Effect.unclaimTicket claimedTicket.id]) ∧
    (applyEffects 3 claimedTicket
        (handleClaimButton ⟨true, ["role1"]⟩
          (some claimedTicket) "staffA").2).claimedById = none :=
  unclaim_skips_permission_guard ⟨true, ["role1"]⟩ ⟨false, []⟩ claimedTicket
    "staffA" 3 rfl

/-! ### Claims about archive and reopen -/

/-- C7 counterexample: archiving an open ticket records the close reason
"Ticket archived", not the claimed literal "archived". -/
theorem archive_reason_counterexample :
    (handleArchiveButton (some sampleTicket) "staff1").1 =
      ArchiveOutcome.archived ∧
    (handleArchiveButton (some sampleTicket) "staff1").2 =
      [Effect.updateTicketStatus "t1" ITicketStatus.ARCHIVED (some "staff1")
         (some "Ticket archived"),
       Effect.channelSend "chan1" "Ticket Archived"] ∧
    Effect.updateTicketStatus "t1" ITicketStatus.ARCHIVED (some "staff1")
        (some "archived") ∉
      (handleArchiveButton (some sampleTicket) "staff1").2 := by
  decide

/-- C7 (amended): archive is legal only when the status is not ARCHIVED: an
already-archived ticket is rejected with no mutation; otherwise the handler
writes status ARCHIVED with the acting user and close reason
"Ticket archived". -/
theorem archive_guard_and_write (t : Ticket) (actorId : String) :
    (t.status = ITicketStatus.ARCHIVED →
      handleArchiveButton (some t) actorId =
        (ArchiveOutcome.alreadyArchived, [])) ∧
    (t.status ≠ ITicketStatus.ARCHIVED →
      handleArchiveButton (some t) actorId =
        (ArchiveOutcome.archived,
         [Effect.updateTicketStatus t.id ITicketStatus.ARCHIVED (some actorId)
            (some "Ticket archived"),
          Effect.channelSend t.channelId "Ticket Archived"])) := by
  constructor <;> intro h <;> simp [handleArchiveButton, h]

theorem archive_guard_and_write_witness :
    handleArchiveButton (some archivedTicket) "staff1" =
      (ArchiveOutcome.alreadyArchived, []) :=
  (archive_guard_and_write archivedTicket "staff1").1 rfl

/-- C8: reopening an already-open ticket is rejected with no mutation; from
any other starting status (closing resp. archiving via the repository write,
then pressing reopen) the handler reports success and the resulting record
has status OPEN with `closedAt`, `closeReason` and `closedById` cleared. -/
theorem reopen_guard_and_round_trip (t : Ticket) (a1 : String)
    (reason : String) (n1 n2 : Nat) (permsOk : Bool) (a2 : String) :
    (t.status = ITicketStatus.OPEN →
      handleReopenButton (some t) a2 permsOk = (ReopenOutcome.alreadyOpen, [])) ∧
    (∀ st : ITicketStatus, st ≠ ITicketStatus.OPEN →
      (handleReopenButton
          (some (updateTicketStatus t st (some a1) (some reason) n1))
          a2 permsOk).1 = ReopenOutcome.reopened ∧
      (applyEffects n2 (updateTicketStatus t st (some a1) (some reason) n1)
          (handleReopenButton
            (some (updateTicketStatus t st (some a1) (some reason) n1))
            a2 permsOk).2) =
        { t with status := ITicketStatus.OPEN, closedById := none,
                 closeReason := none, closedAt := none }) := by
  constructor
  · intro h
    simp [handleReopenButton, h]
  · intro st hst
    cases st with
    | OPEN => exact absurd rfl hst
    | CLOSED =>
      cases permsOk <;> rcases hsup : t.category.supportRoleId with _ | r <;>
        simp [handleReopenButton, updateTicketStatus, applyEffects, applyEffect,
          hsup]
    | ARCHIVED =>
      cases permsOk <;> rcases hsup : t.category.supportRoleId with _ | r <;>
        simp [handleReopenButton, updateTicketStatus, applyEffects, applyEffect,
          hsup]

theorem reopen_guard_and_round_trip_witness :
    (handleReopenButton
        (some (updateTicketStatus sampleTicket ITicketStatus.CLOSED
          (some "staffA") (some "resolved") 10))
        "staffB" true).1 = ReopenOutcome.reopened ∧
    (applyEffects 11
        (updateTicketStatus sampleTicket ITicketStatus.CLOSED
          (some "staffA") (some "resolved") 10)
        (handleReopenButton
          (some (updateTicketStatus sampleTicket ITicketStatus.CLOSED
            (some "staffA") (some "resolved") 10))
          "staffB" true).2) =
      { sampleTicket with status := ITicketStatus.OPEN, closedById := none,
                          closeReason := none, closedAt := none } :=
  (reopen_guard_and_round_trip sampleTicket "staffA" "resolved" 10 11 true
    "staffB").2 ITicketStatus.CLOSED (by decide)

/-! ### Claims about the creation saga -/

/-- C9: a thrown record-store query inside the existing-ticket check is
swallowed: `checkExistingTicket` reports "no existing ticket", and the
creation saga proceeds to prerequisite validation exactly as it would for a
user with no open ticket, rather than aborting. -/
theorem checkExistingTicket_error_swallowed
    (env : SagaEnv) (options : ITicketCreationOptions) (e : String)
    (h : env.guildTickets = Except.error e) :
    (checkExistingTicket env options.userId options.guildId).1 = none ∧
    Effect.getGuildConfig options.guildId ∈ (createTicket env options).2 ∧
    createTicket env options =
      createTicket { env with guildTickets := Except.ok [] } options := by
  obtain ⟨gt, cr, pt, gc, cat, gf, cc, rc, ro, wo, cd⟩ := env
  simp only at h
  subst h
  refine ⟨by simp [checkExistingTicket], ?_, by rfl⟩
  have hx : Effect.getGuildConfig options.guildId ∈
      (validateCreationPrerequisites
        ⟨Except.error e, cr, pt, gc, cat, gf, cc, rc, ro, wo, cd⟩
        options.guildId options.categoryId).2 := by
    simp only [validateCreationPrerequisites]
    repeat' split
    all_goals simp
  simp only [createTicket]
  split
  next x heq => simp [checkExistingTicket] at heq
  next heq =>
    repeat' split
    all_goals simp [List.mem_append, hx]

theorem checkExistingTicket_error_swallowed_witness :
    (checkExistingTicket throwEnv sampleOptions.userId
        sampleOptions.guildId).1 = none ∧
    Effect.getGuildConfig sampleOptions.guildId ∈
      (createTicket throwEnv sampleOptions).2 ∧
    createTicket throwEnv sampleOptions =
      createTicket { throwEnv with guildTickets := Except.ok [] }
        sampleOptions :=
  checkExistingTicket_error_swallowed throwEnv sampleOptions "db down" rfl

/-! ### Claims about the deletion flow -/

/-- C5: in a confirmed deletion (ticket channel resolves, requester holds
Manage Channels, the gate collects exactly one event and it is the confirm
press), the persisted CLOSED write with the acting user and a reason is the
first effect, strictly before the channel-removal attempt; the ticket's
prior status is arbitrary; the CLOSED write is the only repository status
write under either outcome of the removal, and a removal failure is
reported to the actor by DM rather than rolled back. -/
theorem delete_confirm_closes_before_channel_removal
    (t : Ticket) (req : String) (events : List TimedEvent) (latency : Nat)
    (delOk : Bool) (i : ComponentEvent)
    (hcoll : gateCollected req latency events = [i])
    (hconfirm : i.customId = "confirm_delete") :
    (handleDeleteButton (some t) req true events latency delOk).2[0]? =
      some (Effect.updateTicketStatus t.id ITicketStatus.CLOSED (some req)
        (some "Ticket deleted by staff")) ∧
    (handleDeleteButton (some t) req true events latency delOk).2[3]? =
      some (Effect.channelDelete t.channelId) ∧
    (handleDeleteButton (some t) req true events latency delOk).2.filter
        isStatusUpdateEffect =
      [Effect.updateTicketStatus t.id ITicketStatus.CLOSED (some req)
        (some "Ticket deleted by staff")] ∧
    (delOk = false →
      Effect.dmUser req "Failed to delete the ticket channel." ∈
        (handleDeleteButton (some t) req true events latency delOk).2) := by
  cases delOk <;>
    simp [handleDeleteButton, runDeleteCollector, hcoll, hconfirm,
      collectHandlerTrace, confirmDeleteTrace, isStatusUpdateEffect]

theorem delete_confirm_closes_before_channel_removal_witness :
    (handleDeleteButton (some sampleTicket) "staff1"
        true [⟨5, confirmPress⟩] 3 false).2[0]? =
      some (Effect.updateTicketStatus sampleTicket.id ITicketStatus.CLOSED
        (some "staff1") (some "Ticket deleted by staff")) ∧
    (handleDeleteButton (some sampleTicket) "staff1"
        true [⟨5, confirmPress⟩] 3 false).2[3]? =
      some (Effect.channelDelete sampleTicket.channelId) ∧
    (handleDeleteButton (some sampleTicket) "staff1"
        true [⟨5, confirmPress⟩] 3 false).2.filter
        isStatusUpdateEffect =
      [Effect.updateTicketStatus sampleTicket.id ITicketStatus.CLOSED
        (some "staff1") (some "Ticket deleted by staff")] ∧
    (false = false →
      Effect.dmUser "staff1" "Failed to delete the ticket channel." ∈
        (handleDeleteButton (some sampleTicket) "staff1"
          true [⟨5, confirmPress⟩] 3 false).2) :=
  delete_confirm_closes_before_channel_removal sampleTicket "staff1"
    [⟨5, confirmPress⟩] 3 false confirmPress (by decide) rfl

/-- C6: at the failing input — two confirm presses by the requesting
principal dispatched 1 ms apart, the second while the first collect handler
is still awaiting, before its `collector.stop()` (latency 3 ms) executes —
the still-active collector collects the duplicate too, and the delete
transition runs twice: two CLOSED status writes and two channel-removal
attempts, contradicting the claimed exactly-once execution.  The rest of
the claim holds: a duplicate confirm dispatched after the stop has executed
is ignored (one execution), a press by another principal is not collected,
and an empty window yields the timeout reply exactly once over the 30000 ms
window. -/
theorem confirmation_gate_double_confirm_executes_twice :
    ((runDeleteCollector sampleTicket "staff1"
        [⟨0, confirmPress⟩, ⟨1, confirmPress⟩] 3 true).filter
        isStatusUpdateEffect).length = 2 ∧
    ((runDeleteCollector sampleTicket "staff1"
        [⟨0, confirmPress⟩, ⟨1, confirmPress⟩] 3 true).filter
        isChannelDeleteEffect).length = 2 ∧
    ((runDeleteCollector sampleTicket "staff1"
        [⟨0, confirmPress⟩, ⟨5, confirmPress⟩] 3 true).filter
        isStatusUpdateEffect).length = 1 ∧
    gateCollected "staff1" 3
        [⟨2, { isButton := true, customId := "confirm_delete",
               userId := "intruder" }⟩] = [] ∧
    runDeleteCollector sampleTicket "staff1" [] 3 true =
      [Effect.editReplyMsg "Ticket deletion timed out."] ∧
    collectorWindowMs = 30000 := by
  decide

/-- A passing validation always carries a category payload. -/
theorem validate_valid_category (env : SagaEnv) (g c : String)
    (h : (validateCreationPrerequisites env g c).1.valid = true) :
    ∃ cat, (validateCreationPrerequisites env g c).1.category = some cat := by
  simp only [validateCreationPrerequisites] at *
  repeat' split at h
  all_goals simp_all

/-- The validation step always issues the guild-config read. -/
theorem getGuildConfig_mem_validate_trace (env : SagaEnv) (g c : String) :
    Effect.getGuildConfig g ∈ (validateCreationPrerequisites env g c).2 := by
  simp only [validateCreationPrerequisites]
  repeat' split
  all_goals simp

/-- The validation step issues no repository status write. -/
theorem validate_trace_no_status (env : SagaEnv) (g c : String) :
    ((validateCreationPrerequisites env g c).2.filter isStatusUpdateEffect) = [] := by
  simp only [validateCreationPrerequisites]
  repeat' split
  all_goals simp [isStatusUpdateEffect]

/-- Core of the rollback analysis: once the saga reaches provisioning and the
record insert throws (or the later rename throws), the result is the generic
failure and the provisioned channel's deletion is in the trace. -/
theorem createTicket_failure_core (env : SagaEnv)
    (options : ITicketCreationOptions) (chId : String)
    (hnodup : (checkExistingTicket env options.userId options.guildId).1 = none)
    (hvalid : (validateCreationPrerequisites env options.guildId
      options.categoryId).1.valid = true)
    (hguild : env.guildFound = true)
    (hch : env.createdChannel = some chId)
    (hfail : (∃ e, env.repoCreate = Except.error e) ∨ env.renameOk = false) :
    (createTicket env options).1 =
      { success := false, ticket := none, channel := none, ticketNumber := none,
        error := some "An unexpected error occurred while creating the ticket" } ∧
    Effect.channelDelete chId ∈ (createTicket env options).2 := by
  obtain ⟨cat1, hcat⟩ :=
    validate_valid_category env options.guildId options.categoryId hvalid
  rcases hfail with ⟨e, he⟩ | hren
  · simp [createTicket, hnodup, hvalid, hcat, hguild, hch, he, List.mem_append]
  · rcases hrc : env.repoCreate with e | tk
    · simp [createTicket, hnodup, hvalid, hcat, hguild, hch, hrc,
        List.mem_append]
    · simp [createTicket, hnodup, hvalid, hcat, hguild, hch, hrc, hren,
        List.mem_append]

/-- C1: whenever the saga has provisioned the channel and a later step throws
(in particular the record insert, and likewise the rename), `createTicket`
deletes the provisioned channel before returning and returns a failure
result carrying an error message; the outcome of the compensating delete
does not change the returned result. -/
theorem createTicket_rolls_back_channel_on_later_failure (env : SagaEnv)
    (options : ITicketCreationOptions) (chId : String)
    (hnodup : (checkExistingTicket env options.userId options.guildId).1 = none)
    (hvalid : (validateCreationPrerequisites env options.guildId
      options.categoryId).1.valid = true)
    (hguild : env.guildFound = true)
    (hch : env.createdChannel = some chId)
    (hfail : (∃ e, env.repoCreate = Except.error e) ∨ env.renameOk = false) :
    (createTicket env options).1.success = false ∧
    (createTicket env options).1.error =
      some "An unexpected error occurred while creating the ticket" ∧
    Effect.channelDelete chId ∈ (createTicket env options).2 ∧
    ∀ b : Bool,
      (createTicket { env with channelDeleteOk := b } options).1 =
        (createTicket env options).1 := by
  obtain ⟨gt, cr, pt, gc, cat0, gf, cc, rc, ro, wo, cd⟩ := env
  have h1 := createTicket_failure_core ⟨gt, cr, pt, gc, cat0, gf, cc, rc, ro, wo, cd⟩
    options chId hnodup hvalid hguild hch hfail
  refine ⟨by rw [h1.1], by rw [h1.1], h1.2, ?_⟩
  intro b
  have h2 := createTicket_failure_core ⟨gt, cr, pt, gc, cat0, gf, cc, rc, ro, wo, b⟩
    options chId hnodup hvalid hguild hch hfail
  have hup : ({ SagaEnv.mk gt cr pt gc cat0 gf cc rc ro wo cd with
      channelDeleteOk := b } : SagaEnv) =
      SagaEnv.mk gt cr pt gc cat0 gf cc rc ro wo b := rfl
  rw [hup, h2.1, h1.1]

theorem createTicket_rolls_back_channel_witness :
    (createTicket persistFailEnv sampleOptions).1.success = false ∧
    (createTicket persistFailEnv sampleOptions).1.error =
      some "An unexpected error occurred while creating the ticket" ∧
    Effect.channelDelete "chan9" ∈ (createTicket persistFailEnv sampleOptions).2 ∧
    (createTicket { persistFailEnv with channelDeleteOk := false }
        sampleOptions).1 = (createTicket persistFailEnv sampleOptions).1 :=
  have h := createTicket_rolls_back_channel_on_later_failure persistFailEnv
    sampleOptions "chan9" rfl rfl rfl rfl (Or.inl ⟨"insert failed", rfl⟩)
  ⟨h.1, h.2.1, h.2.2.1, h.2.2.2 false⟩

/-- C2 counterexample: with provisioning and persistence succeeding and only
the rename (step 6) failing, `createTicket` returns failure and the
provisioned channel is deleted — not the non-fatal success the claim
states. -/
theorem rename_failure_counterexample :
    (createTicket renameFailEnv sampleOptions).1.success = false ∧
    (createTicket renameFailEnv sampleOptions).1.ticket = none ∧
    Effect.channelDelete "chan9" ∈ (createTicket renameFailEnv sampleOptions).2 := by
  decide

/-- C2 (amended): a failing channel-finalization rename is fatal: it reaches
the outer catch, so `createTicket` deletes the provisioned channel and
returns the generic failure; the persisted record however is not rolled
back — the run issues no repository status write (and the model has no
record-deletion effect at all). -/
theorem rename_failure_is_fatal (env : SagaEnv)
    (options : ITicketCreationOptions) (chId : String) (tk : Ticket)
    (hnodup : (checkExistingTicket env options.userId options.guildId).1 = none)
    (hstale : (checkExistingTicket env options.userId options.guildId).2 =
      [Effect.getGuildTickets options.guildId])
    (hvalid : (validateCreationPrerequisites env options.guildId
      options.categoryId).1.valid = true)
    (hguild : env.guildFound = true)
    (hch : env.createdChannel = some chId)
    (hok : env.repoCreate = Except.ok tk)
    (hren : env.renameOk = false) :
    (createTicket env options).1.success = false ∧
    (createTicket env options).1.error =
      some "An unexpected error occurred while creating the ticket" ∧
    Effect.channelDelete chId ∈ (createTicket env options).2 ∧
    (createTicket env options).2.filter isStatusUpdateEffect = [] := by
  obtain ⟨cat1, hcat⟩ :=
    validate_valid_category env options.guildId options.categoryId hvalid
  rcases hsup : cat1.supportRoleId with _ | r <;>
    simp [createTicket, hnodup, hstale, hvalid, hcat, hguild, hch, hok, hren,
      hsup, List.mem_append, List.filter_append, isStatusUpdateEffect,
      validate_trace_no_status]

theorem rename_failure_is_fatal_witness :
    (createTicket renameFailEnv sampleOptions).1.success = false ∧
    (createTicket renameFailEnv sampleOptions).1.error =
      some "An unexpected error occurred while creating the ticket" ∧
    Effect.channelDelete "chan9" ∈ (createTicket renameFailEnv sampleOptions).2 ∧
    (createTicket renameFailEnv sampleOptions).2.filter isStatusUpdateEffect
      = [] :=
  rename_failure_is_fatal renameFailEnv sampleOptions "chan9" sampleNewTicket
    rfl rfl rfl rfl rfl rfl rfl

/-- C3 counterexample: a stale open ticket (its channel no longer resolves)
is healed with closer "system" and reason "Ticket channel was deleted"; no
status write with the claimed reason "channel missing" occurs anywhere in
the run. -/
theorem stale_heal_reason_counterexample :
    (checkExistingTicket staleEnv "user1" "guild1").1 = none ∧
    (checkExistingTicket staleEnv "user1" "guild1").2 =
      [Effect.getGuildTickets "guild1",
       Effect.updateTicketStatus "t1" ITicketStatus.CLOSED (some "system")
         (some "Ticket channel was deleted")] ∧
    (createTicket staleEnv sampleOptions).2.filter isStatusUpdateEffect =
      [Effect.updateTicketStatus "t1" ITicketStatus.CLOSED (some "system")
         (some "Ticket channel was deleted")] ∧
    ("Ticket channel was deleted" : String) ≠ "channel missing" := by
  decide

/-- C3 (amended): if the first open ticket of the requesting user in the
guild has a resolving channel, `createTicket` aborts with the duplicate
failure referencing that channel and issues nothing beyond the initial read
(in particular it provisions nothing); if that ticket's channel does not
resolve, the stale record is transitioned to CLOSED by "system" with reason
"Ticket channel was deleted" immediately after the read, and the saga then
proceeds to validation. -/
theorem existing_ticket_check_behaviour (env : SagaEnv)
    (options : ITicketCreationOptions) (ts : List Ticket) (t : Ticket)
    (rest : List Ticket)
    (hts : env.guildTickets = Except.ok ts)
    (hfil : ts.filter (fun tk => tk.creatorId == options.userId &&
      tk.status == ITicketStatus.OPEN) = t :: rest) :
    (env.channelResolves t.channelId = true →
      createTicket env options =
        ({ success := false, ticket := none, channel := none,
           ticketNumber := none,
           error := some ("You already have an open ticket: " ++ t.channelId) },
         [Effect.getGuildTickets options.guildId])) ∧
    (env.channelResolves t.channelId = false →
      (createTicket env options).2[0]? =
        some (Effect.getGuildTickets options.guildId) ∧
      (createTicket env options).2[1]? =
        some (Effect.updateTicketStatus t.id ITicketStatus.CLOSED
          (some "system") (some "Ticket channel was deleted")) ∧
      Effect.getGuildConfig options.guildId ∈ (createTicket env options).2) := by
  constructor
  · intro h
    simp [createTicket, checkExistingTicket, hts, hfil, h]
  · intro h
    have hstep1 : checkExistingTicket env options.userId options.guildId =
        (none,
         [Effect.getGuildTickets options.guildId,
          Effect.updateTicketStatus t.id ITicketStatus.CLOSED (some "system")
            (some "Ticket channel was deleted")]) := by
      simp [checkExistingTicket, hts, hfil, h]
    have hg := getGuildConfig_mem_validate_trace env options.guildId
      options.categoryId
    simp only [createTicket, hstep1]
    repeat' split
    all_goals simp [List.mem_append, hg]

theorem existing_ticket_check_behaviour_witness :
    (createTicket dupEnv sampleOptions =
      ({ success := false, ticket := none, channel := none,
         ticketNumber := none,
         error := some ("You already have an open ticket: " ++ "chan1") },
       [Effect.getGuildTickets "guild1"])) ∧
    ((createTicket staleEnv sampleOptions).2[0]? =
        some (Effect.getGuildTickets "guild1") ∧
      (createTicket staleEnv sampleOptions).2[1]? =
        some (Effect.updateTicketStatus "t1" ITicketStatus.CLOSED
          (some "system") (some "Ticket channel was deleted")) ∧
      Effect.getGuildConfig "guild1" ∈ (createTicket staleEnv sampleOptions).2) :=
  ⟨(existing_ticket_check_behaviour dupEnv sampleOptions [sampleTicket]
      sampleTicket [] rfl (by decide)).1 rfl,
   (existing_ticket_check_behaviour staleEnv sampleOptions [sampleTicket]
      sampleTicket [] rfl (by decide)).2 rfl⟩

end SaltBot
